import Mathlib

/-!
Verification of the VAD-inspection plugin family (`vadinfo.py`):
`VADInfo` (flag decoding and per-node rendering), `VADTree` (depth-annotated
tree walk), and `VADDump` (region extraction to files).

The plugin code is embedded shallowly: each render loop becomes a pure
recursive function over an explicit list of traversal results, file-system
effects become explicit environments (`isDir`, `writable`), and Python
exceptions become an explicit error component in the result.  Collaborators
that live outside this file's source (the VAD-tree `traverse` generator and
the per-process address space with its `vtop`/`zread` operations) are
modelled from the specification's contracts and marked as such.
-/

namespace Vadinfo

/-! ## Hexadecimal formatting (model of Python `hex()` and `"%x"` / `"%08x"`) -/

/-- One lowercase hexadecimal digit character, as Python formats it. -/
def hexDigit (m : Nat) : Char :=
  if m < 10 then Char.ofNat (48 + m) else Char.ofNat (87 + m)

/-- Numeric value of a lowercase hexadecimal digit character. -/
def hexCharVal (c : Char) : Nat :=
  if 97 ≤ c.toNat then c.toNat - 87 else c.toNat - 48

/-- Digits of `n` in base 16, most significant first; `[]` for `n = 0`.
The first argument is structural fuel, always called with `fuel = n`. -/
def toHexCore : Nat → Nat → List Char
  | 0, _ => []
  | _ + 1, 0 => []
  | fuel + 1, n + 1 =>
    toHexCore fuel ((n + 1) / 16) ++ [hexDigit ((n + 1) % 16)]

/-- Lowercase hexadecimal digits of `n`, as Python `"{0:x}".format(n)`. -/
def toHex (n : Nat) : List Char :=
  if n = 0 then [Char.ofNat 48] else toHexCore n n

/-- Numeric value of a big-endian list of hexadecimal digits, continuing
from accumulator `a`. -/
def hexValFrom (a : Nat) (ds : List Char) : Nat :=
  ds.foldl (fun x c => 16 * x + hexCharVal c) a

/-- Numeric value of a big-endian list of hexadecimal digit characters. -/
def hexVal (ds : List Char) : Nat := hexValFrom 0 ds

/-- Python `hex(n)`: the `0x`-prefixed lowercase hexadecimal rendering. -/
def pyHex (n : Nat) : String :=
  "0x" ++ String.mk (toHex n)

/-- Python `"{0:08x}".format(n)`: hexadecimal, zero-padded to width 8. -/
def hex08 (n : Nat) : String :=
  String.mk (List.replicate (8 - (toHex n).length) (Char.ofNat 48) ++ toHex n)

/-! ## Flag decoding tables (`VADInfo.PROTECT_FLAGS`, `VADInfo.MI_VAD_TYPE`) -/

/-- The 32-entry protection table of `VADInfo.PROTECT_FLAGS`, reproduced
verbatim from the source. -/
def PROTECT_FLAGS : List String := [
  "PAGE_NOACCESS",
  "PAGE_READONLY",
  "PAGE_EXECUTE",
  "PAGE_EXECUTE_READ",
  "PAGE_READWRITE",
  "PAGE_WRITECOPY",
  "PAGE_EXECUTE_READWRITE",
  "PAGE_EXECUTE_WRITECOPY",
  "PAGE_NOACCESS",
  "PAGE_NOCACHE | PAGE_READONLY",
  "PAGE_NOCACHE | PAGE_EXECUTE",
  "PAGE_NOCACHE | PAGE_EXECUTE_READ",
  "PAGE_NOCACHE | PAGE_READWRITE",
  "PAGE_NOCACHE | PAGE_WRITECOPY",
  "PAGE_NOCACHE | PAGE_EXECUTE_READWRITE",
  "PAGE_NOCACHE | PAGE_EXECUTE_WRITECOPY",
  "PAGE_NOACCESS",
  "PAGE_GUARD | PAGE_READONLY",
  "PAGE_GUARD | PAGE_EXECUTE",
  "PAGE_GUARD | PAGE_EXECUTE_READ",
  "PAGE_GUARD | PAGE_READWRITE",
  "PAGE_GUARD | PAGE_WRITECOPY",
  "PAGE_GUARD | PAGE_EXECUTE_READWRITE",
  "PAGE_GUARD | PAGE_EXECUTE_WRITECOPY",
  "PAGE_NOACCESS",
  "PAGE_WRITECOMBINE | PAGE_READONLY",
  "PAGE_WRITECOMBINE | PAGE_EXECUTE",
  "PAGE_WRITECOMBINE | PAGE_EXECUTE_READ",
  "PAGE_WRITECOMBINE | PAGE_READWRITE",
  "PAGE_WRITECOMBINE | PAGE_WRITECOPY",
  "PAGE_WRITECOMBINE | PAGE_EXECUTE_READWRITE",
  "PAGE_WRITECOMBINE | PAGE_EXECUTE_WRITECOPY"
]

/-- The 8-entry VAD-type table of `VADInfo.MI_VAD_TYPE`, reproduced
verbatim from the source. -/
def MI_VAD_TYPE : List String := [
  "VadNone",
  "VadDevicePhysicalMemory",
  "VadImageMap",
  "VadAwe",
  "VadWriteWatch",
  "VadLargePages",
  "VadRotatePhysical",
  "VadLargePageSection"
]

/-- `PROTECT_FLAGS.get(code, hex(code))` as used in `write_vad_short`. -/
def decode_protection (c : Nat) : String :=
  match PROTECT_FLAGS.get? c with
  | some s => s
  | none => pyHex c

/-- `MI_VAD_TYPE.get(code, hex(code))` as used in `write_vad_short`. -/
def decode_vad_type (c : Nat) : String :=
  match MI_VAD_TYPE.get? c with
  | some s => s
  | none => pyHex c

/-! ## The VAD node record -/

/-- One materialized VAD record, with the fields the plugin reads:
identity (`obj_offset`), tree links (`Parent` as the raw pointer value,
child references), inclusive bounds (`get_start`/`get_end`), the tag, the
flag fields of `u.VadFlags`, the `ControlArea` reference (0 for null), and
the record type name (`obj_type`; the generic name is used for
bad-tagged records). -/
structure Vad where
  obj_offset : Nat
  Parent : Nat
  LeftChild : Option Nat
  RightChild : Option Nat
  get_start : Nat
  get_end : Nat
  Tag : String
  Protection : Nat
  VadType : Option Nat
  PrivateMemory : Nat
  ControlArea : Nat
  obj_type : String
deriving DecidableEq

/-- The control-area fields read by `write_vad_control`. -/
structure ControlAreaRec where
  obj_offset : Nat
  Segment : Nat
  Flink : Nat
  Blink : Nat
deriving DecidableEq

/-- `VADInfo.write_vad_control`: returns the control-area record whose
details are rendered, or `none` when the section is omitted.  The resolver
argument models dereferencing the `ControlArea` pointer; the source
returns before touching it when `PrivateMemory == 1`, and treats a null or
unresolvable reference (`if not control_area`) as absent. -/
def write_vad_control (resolve : Nat → Option ControlAreaRec) (v : Vad) :
    Option ControlAreaRec :=
  if v.PrivateMemory = 1 then none
  else if v.ControlArea = 0 then none
  else resolve v.ControlArea

/-! ## Hexadecimal round-trip lemmas -/

lemma hexCharVal_hexDigit : ∀ m, m < 16 → hexCharVal (hexDigit m) = m := by
  decide

lemma hexValFrom_append (a : Nat) (l1 l2 : List Char) :
    hexValFrom a (l1 ++ l2) = hexValFrom (hexValFrom a l1) l2 := by
  simp [hexValFrom, List.foldl_append]

lemma hexValFrom_toHexCore :
    ∀ fuel n a, n ≤ fuel →
      hexValFrom a (toHexCore fuel n) =
        a * 16 ^ (toHexCore fuel n).length + n := by
  intro fuel
  induction fuel with
  | zero =>
    intro n a hn
    interval_cases n
    simp [toHexCore, hexValFrom]
  | succ f ih =>
    intro n a hn
    cases n with
    | zero => simp [toHexCore, hexValFrom]
    | succ m =>
      have hdiv : (m + 1) / 16 ≤ f := by
        have h1 : (m + 1) / 16 < m + 1 := Nat.div_lt_self (Nat.succ_pos m) (by decide)
        omega
      rw [toHexCore, hexValFrom_append, ih _ a hdiv]
      have hlt : (m + 1) % 16 < 16 := Nat.mod_lt _ (by decide)
      simp only [hexValFrom, List.foldl_cons, List.foldl_nil,
        hexCharVal_hexDigit _ hlt, List.length_append, List.length_cons,
        List.length_nil]
      have hmod : 16 * ((m + 1) / 16) + (m + 1) % 16 = m + 1 :=
        Nat.div_add_mod (m + 1) 16
      ring_nf
      omega

lemma hexVal_toHex (n : Nat) : hexVal (toHex n) = n := by
  by_cases h : n = 0
  · subst h; decide
  · unfold toHex
    rw [if_neg h]
    have := hexValFrom_toHexCore n n 0 (le_refl n)
    simpa [hexVal] using this

lemma PROTECT_FLAGS_length : PROTECT_FLAGS.length = 32 := by decide

lemma MI_VAD_TYPE_length : MI_VAD_TYPE.length = 8 := by decide

/-! ## Claim theorems: flag decoding and control-area guard -/

/-- Claim C6: `decode_protection` and `decode_vad_type` are total: every
protection code in `0..31` and VAD-type code in `0..7` returns the defined
label of the fixed 32- and 8-entry tables, and every out-of-range input
returns the formatted hexadecimal fallback, whose digits re-evaluate to the
raw numeric value, instead of failing.  Both are pure functions. -/
theorem decode_flags_total :
    (∀ c, c < 32 → PROTECT_FLAGS.get? c = some (decode_protection c)) ∧
    (∀ c, 32 ≤ c → decode_protection c = pyHex c) ∧
    (∀ c, c < 8 → MI_VAD_TYPE.get? c = some (decode_vad_type c)) ∧
    (∀ c, 8 ≤ c → decode_vad_type c = pyHex c) ∧
    (∀ c, hexVal (toHex c) = c) := by
  refine ⟨by decide, ?_, by decide, ?_, hexVal_toHex⟩
  · intro c hc
    have hnone : PROTECT_FLAGS.get? c = none :=
      List.get?_eq_none.mpr (by rw [PROTECT_FLAGS_length]; exact hc)
    rw [List.get?_eq_getElem?] at hnone
    simp [decode_protection, hnone]
  · intro c hc
    have hnone : MI_VAD_TYPE.get? c = none :=
      List.get?_eq_none.mpr (by rw [MI_VAD_TYPE_length]; exact hc)
    rw [List.get?_eq_getElem?] at hnone
    simp [decode_vad_type, hnone]

theorem decode_flags_total_witness :
    PROTECT_FLAGS.get? 4 = some (decode_protection 4) ∧
    decode_protection 40 = pyHex 40 ∧
    MI_VAD_TYPE.get? 2 = some (decode_vad_type 2) ∧
    decode_vad_type 9 = pyHex 9 ∧
    hexVal (toHex 40) = 40 :=
  ⟨decode_flags_total.1 4 (by decide),
   decode_flags_total.2.1 40 (by decide),
   decode_flags_total.2.2.1 2 (by decide),
   decode_flags_total.2.2.2.1 9 (by decide),
   decode_flags_total.2.2.2.2 40⟩

/-- Claim C7: `write_vad_control` includes Control Area details exactly
when the node is not private memory, the `ControlArea` reference is
nonzero, and the reference resolves; and for a private-memory node the
result never depends on the resolver, i.e. no resolution is attempted. -/
theorem write_vad_control_private_guard :
    (∀ r1 r2 v, v.PrivateMemory = 1 →
        write_vad_control r1 v = write_vad_control r2 v) ∧
    (∀ r v, (write_vad_control r v).isSome ↔
        (v.PrivateMemory ≠ 1 ∧ v.ControlArea ≠ 0 ∧ (r v.ControlArea).isSome)) := by
  constructor
  · intro r1 r2 v hp
    simp [write_vad_control, hp]
  · intro r v
    by_cases hp : v.PrivateMemory = 1
    · simp [write_vad_control, hp]
    · by_cases hc : v.ControlArea = 0
      · simp [write_vad_control, hp, hc]
      · simp [write_vad_control, hp, hc]

/-- A private-memory node used to instantiate the control-area guard. -/
def vadPrivate : Vad :=
  { obj_offset := 16, Parent := 0, LeftChild := none, RightChild := none,
    get_start := 4096, get_end := 8191, Tag := "VadS", Protection := 4,
    VadType := some 0, PrivateMemory := 1, ControlArea := 256,
    obj_type := "_MMVAD_SHORT" }

theorem write_vad_control_private_guard_witness :
    write_vad_control (fun _ => none) vadPrivate =
      write_vad_control (fun a => some ⟨a, 0, 0, 0⟩) vadPrivate :=
  write_vad_control_private_guard.1 (fun _ => none)
    (fun a => some ⟨a, 0, 0, 0⟩) vadPrivate (by decide)

/-! ## The VAD tree traversal -/

/-- Modelled from the spec: the VAD-tree `traverse` generator
(`task.VadRoot.traverse()`), which is implemented outside this plugin
file.  Per §4.2 it enumerates the tree with parents before children
(pre-order), attempts to materialize each visited reference (a failed
materialization is yielded as `none`, mirroring the bad-tag references the
consumers filter with `if vad:`), and caps the number of visited nodes,
reporting an exceeded cap as a truncation flag rather than failing.  The
worklist holds the references still to visit; each visited reference
consumes one unit of the visited-node budget. -/
def traverseAux (mem : Nat → Option Vad) :
    Nat → List Nat → List (Option Vad) × Bool
  | _, [] => ([], false)
  | 0, _ :: _ => ([], true)
  | fuel + 1, r :: rest =>
    match mem r with
    | none =>
      let p := traverseAux mem fuel rest
      (none :: p.1, p.2)
    | some v =>
      let p := traverseAux mem fuel
        (v.LeftChild.toList ++ v.RightChild.toList ++ rest)
      (some v :: p.1, p.2)

/-- Modelled from the spec: `root.traverse()` with a null/absent root
treated as an empty sequence (§4.2); `cap` is the maximum visited-node
count, and the second component reports truncation. -/
def vadTraverse (mem : Nat → Option Vad) (root cap : Nat) :
    List (Option Vad) × Bool :=
  if root = 0 then ([], false) else traverseAux mem cap [root]

/-- Modelled from the spec: the per-process address-space translator
(§6), implemented outside this plugin file.  `vtop` translates a virtual
address to a backing offset or reports it unresolved; `resident` tells
whether the 4096-byte page holding an address is resident (indexed by
`address / 4096`); `memByte` gives the byte content of resident pages. -/
structure AddrSpace where
  resident : Nat → Bool
  memByte : Nat → Nat
  vtop : Nat → Option Nat

/-- Modelled from the spec: the zero-padding bulk reader
`task_space.zread(addr, len)` (§6): reads `len` bytes through the virtual
address space, synthesizing zero bytes for any byte on a non-resident
page. -/
def AddrSpace.zread (a : AddrSpace) (addr len : Nat) : List Nat :=
  (List.range len).map
    (fun i => if a.resident ((addr + i) / 4096) then a.memByte (addr + i) else 0)

/-- One analyzed process: identity, image name, its own control-block
offset, its address space, its VAD root reference, and the record
materializer.  The materializer (`mem`) is modelled from the spec (§6): it
attempts to produce a typed VAD node for a reference. -/
structure PTask where
  UniqueProcessId : Nat
  ImageFileName : String
  obj_offset : Nat
  space : AddrSpace
  VadRoot : Nat
  mem : Nat → Option Vad

/-! ## `VADTree.render`: the depth-annotated walk -/

/-- The body of the `VADTree.render` loop: for each materialized node, the
reported level is `levels.get(vad.Parent.v(), -1) + 1` and the node's own
offset is then recorded with that level; unmaterialized entries are
skipped (`if vad:`).  Produces the `(start, end, level)` rows written. -/
def vadTreeGo : List (Option Vad) → (Nat → Option Int) → List (Nat × Nat × Int)
  | [], _ => []
  | none :: rest, levels => vadTreeGo rest levels
  | some v :: rest, levels =>
    let level : Int := (levels v.Parent).getD (-1) + 1
    (v.get_start, v.get_end, level) ::
      vadTreeGo rest (fun k => if k = v.obj_offset then some level else levels k)

/-- `VADTree.render` for one process: walk the tree and emit the
depth-annotated rows, starting from an empty `levels` mapping. -/
def vadTreeRender (t : PTask) (cap : Nat) : List (Nat × Nat × Int) :=
  vadTreeGo (vadTraverse t.mem t.VadRoot cap).1 (fun _ => none)

/-- A corrupted one-node tree: the root's left child is the root itself. -/
def vadCyc : Vad :=
  { obj_offset := 1, Parent := 0, LeftChild := some 1, RightChild := none,
    get_start := 4096, get_end := 8191, Tag := "Vad ", Protection := 4,
    VadType := some 0, PrivateMemory := 1, ControlArea := 0,
    obj_type := "_MMVAD_SHORT" }

/-- Materializer for the self-referential tree. -/
def memCyc : Nat → Option Vad :=
  fun r => if r = 1 then some vadCyc else none

lemma traverseAux_length_le (mem : Nat → Option Vad) :
    ∀ fuel wl, (traverseAux mem fuel wl).1.length ≤ fuel := by
  intro fuel
  induction fuel with
  | zero =>
    intro wl
    cases wl <;> simp [traverseAux]
  | succ f ih =>
    intro wl
    cases wl with
    | nil => simp [traverseAux]
    | cons r rest =>
      simp only [traverseAux]
      cases h : mem r with
      | none =>
        simpa using ih rest
      | some v =>
        simpa using ih (v.LeftChild.toList ++ v.RightChild.toList ++ rest)

/-- Claim C2: for every VAD tree the walk terminates with at most `cap`
visited nodes; on the corrupted tree whose root's left child is the root
itself the cap is hit, truncation is reported (`true` flag), and the walk
still returns the visited prefix rather than failing. -/
theorem vadtraverse_capped_terminates :
    (∀ mem root cap, (vadTraverse mem root cap).1.length ≤ cap) ∧
    (vadTraverse memCyc 1 5).2 = true ∧
    (vadTraverse memCyc 1 5).1.length = 5 := by
  refine ⟨?_, by decide, by decide⟩
  intro mem root cap
  by_cases h : root = 0
  · simp [vadTraverse, h]
  · simpa [vadTraverse, h] using traverseAux_length_le mem cap [root]

/-- The three-node scenario tree: A(root) with left child B, and C as B's
right child. -/
def vadA : Vad :=
  { obj_offset := 16, Parent := 0, LeftChild := some 32, RightChild := none,
    get_start := 4096, get_end := 8191, Tag := "Vad ", Protection := 4,
    VadType := some 0, PrivateMemory := 1, ControlArea := 0,
    obj_type := "_MMVAD_SHORT" }

def vadB : Vad :=
  { obj_offset := 32, Parent := 16, LeftChild := none, RightChild := some 48,
    get_start := 8192, get_end := 12287, Tag := "Vad ", Protection := 4,
    VadType := some 0, PrivateMemory := 1, ControlArea := 0,
    obj_type := "_MMVAD_SHORT" }

def vadC : Vad :=
  { obj_offset := 48, Parent := 32, LeftChild := none, RightChild := none,
    get_start := 12288, get_end := 16383, Tag := "Vad ", Protection := 4,
    VadType := some 0, PrivateMemory := 1, ControlArea := 0,
    obj_type := "_MMVAD_SHORT" }

def memABC : Nat → Option Vad :=
  fun r =>
    if r = 16 then some vadA
    else if r = 32 then some vadB
    else if r = 48 then some vadC
    else none

/-- A fully-resident address space used where the claim does not depend
on residency. -/
def spaceTriv : AddrSpace :=
  { resident := fun _ => true, memByte := fun _ => 0, vtop := fun _ => some 0 }

def taskABC : PTask :=
  { UniqueProcessId := 4, ImageFileName := "abc.exe", obj_offset := 1280,
    space := spaceTriv, VadRoot := 16, mem := memABC }

/-- Claim C3: the level reported for a node whose parent identity carries
depth `d` in the incrementally built mapping is `d + 1`; a node whose
parent is absent from the mapping (the root) is reported at depth 0; and
the three-node tree A(root)→B(left)→C(right of B) with
A=[0x1000,0x1fff], B=[0x2000,0x2fff], C=[0x3000,0x3fff] yields exactly
[(A,0),(B,1),(C,2)] in pre-order. -/
theorem vadtree_depth_parent_plus_one :
    (∀ levels v rest d, levels v.Parent = some d →
        (vadTreeGo (some v :: rest) levels).head? =
          some (v.get_start, v.get_end, d + 1)) ∧
    (∀ levels v rest, levels v.Parent = none →
        (vadTreeGo (some v :: rest) levels).head? =
          some (v.get_start, v.get_end, 0)) ∧
    vadTreeRender taskABC 10 =
      [(4096, 8191, 0), (8192, 12287, 1), (12288, 16383, 2)] := by
  refine ⟨?_, ?_, by decide⟩
  · intro levels v rest d h
    simp [vadTreeGo, h]
  · intro levels v rest h
    simp [vadTreeGo, h]

theorem vadtree_depth_parent_plus_one_witness :
    (vadTreeGo [some vadB] (fun k => if k = 16 then some 0 else none)).head? =
      some (vadB.get_start, vadB.get_end, 0 + 1) ∧
    (vadTreeGo [some vadA] (fun _ => none)).head? =
      some (vadA.get_start, vadA.get_end, 0) :=
  ⟨vadtree_depth_parent_plus_one.1 (fun k => if k = 16 then some 0 else none)
      vadB [] 0 (by decide),
   vadtree_depth_parent_plus_one.2.1 (fun _ => none) vadA [] (by decide)⟩

/-- A two-node tree whose non-root node B carries a corrupt parent
reference (pointing at offset 57005, which is never visited). -/
def vadOrphan : Vad :=
  { obj_offset := 32, Parent := 57005, LeftChild := none, RightChild := none,
    get_start := 8192, get_end := 12287, Tag := "Vad ", Protection := 4,
    VadType := some 0, PrivateMemory := 1, ControlArea := 0,
    obj_type := "_MMVAD_SHORT" }

def memOrphan : Nat → Option Vad :=
  fun r =>
    if r = 16 then some vadA
    else if r = 32 then some vadOrphan
    else none

def taskOrphan : PTask :=
  { UniqueProcessId := 8, ImageFileName := "orphan.exe", obj_offset := 1536,
    space := spaceTriv, VadRoot := 16, mem := memOrphan }

/-- Claim C10: in the depth computation of `VADTree.render`, every node
whose parent identity is absent from the `levels` mapping — not only the
true root — is emitted (not skipped) with level 0, exactly as a root is,
and its own offset is recorded with level 0; concretely, the child with a
corrupt parent reference in `taskOrphan` is reported at depth 0 alongside
the root. -/
theorem vadtree_orphan_depth_zero :
    (∀ levels v rest, levels v.Parent = none →
        vadTreeGo (some v :: rest) levels =
          (v.get_start, v.get_end, 0) ::
            vadTreeGo rest
              (fun k => if k = v.obj_offset then some 0 else levels k)) ∧
    vadTreeRender taskOrphan 10 = [(4096, 8191, 0), (8192, 12287, 0)] := by
  refine ⟨?_, by decide⟩
  intro levels v rest h
  simp [vadTreeGo, h]

theorem vadtree_orphan_depth_zero_witness :
    vadTreeGo [some vadOrphan] (fun k => if k = 16 then some 0 else none) =
      (vadOrphan.get_start, vadOrphan.get_end, 0) ::
        vadTreeGo []
          (fun k => if k = vadOrphan.obj_offset then some 0
            else if k = 16 then some 0 else none) :=
  vadtree_orphan_depth_zero.1 (fun k => if k = 16 then some 0 else none)
    vadOrphan [] (by decide)

/-! ## `VADDump`: region extraction -/

/-- The destination file name of `VADDump.render`:
`"{0}.{1:x}.{2:08x}-{3:08x}.dmp".format(name, offset, start, end)`. -/
def dump_filename (name : String) (offset s e : Nat) : String :=
  name ++ "." ++ String.mk (toHex offset) ++ "." ++ hex08 s ++ "-" ++
    hex08 e ++ ".dmp"

/-- `os.path.join(self.dump_dir, ...)` applied to the dump file name. -/
def dump_path (dir name : String) (offset s e : Nat) : String :=
  dir ++ "/" ++ dump_filename name offset s e

/-- The byte stream extracted for one VAD node:
`task_space.zread(start, end - start + 1)`. -/
def extractVad (sp : AddrSpace) (v : Vad) : List Nat :=
  sp.zread v.get_start (v.get_end - v.get_start + 1)

/-- The per-process loop body of `VADDump.render` over the traversal
results: unmaterialized references are skipped (`if not vad: continue`),
records of the generic bad-tag type are skipped
(`if vad.obj_type == "_MMVAD": continue`), and for each remaining node the
destination is opened and the extracted bytes written.  The `w`
environment tells whether opening a destination path succeeds; a failed
open raises, which aborts the loop: nothing further is attempted and the
error (carrying the failing path) propagates. -/
def dumpVads (dir : String) (w : String → Bool) (name : String)
    (offset : Nat) (sp : AddrSpace) :
    List (Option Vad) → List (String × List Nat) × Option String
  | [] => ([], none)
  | none :: rest => dumpVads dir w name offset sp rest
  | some v :: rest =>
    if v.obj_type = "_MMVAD" then dumpVads dir w name offset sp rest
    else
      let path := dump_path dir name offset v.get_start v.get_end
      if w path then
        let p := dumpVads dir w name offset sp rest
        ((path, extractVad sp v) :: p.1, p.2)
      else ([], some path)

/-- `VADDump.render` for one process: resolve the process's own
control-block address through its address space (`vtop`); if unresolved,
report and skip the process; otherwise dump its traversed VADs. -/
def renderTask (dir : String) (w : String → Bool) (cap : Nat) (t : PTask) :
    List (String × List Nat) × Option String :=
  match t.space.vtop t.obj_offset with
  | none => ([], none)
  | some offset =>
    dumpVads dir w t.ImageFileName offset t.space
      (vadTraverse t.mem t.VadRoot cap).1

/-- `VADDump.render` over the filtered process list.  An uncaught error in
one process's dump loop propagates and ends the run: later processes are
not attempted. -/
def renderTasks (dir : String) (w : String → Bool) (cap : Nat) :
    List PTask → List (String × List Nat) × Option String
  | [] => ([], none)
  | t :: rest =>
    let p := renderTask dir w cap t
    match p.2 with
    | some e => (p.1, some e)
    | none =>
      let q := renderTasks dir w cap rest
      (p.1 ++ q.1, q.2)

/-- The ambient session whose `dump_dir` is the fallback configuration. -/
structure Session where
  dump_dir : Option String

/-- `dump_dir or self.session.dump_dir` from `VADDump.__init__`. -/
def effectiveDumpDir (session : Option Session) (dump_dir : Option String) :
    Option String :=
  match session with
  | some s => dump_dir.orElse (fun _ => s.dump_dir)
  | none => dump_dir

/-- `VADDump.__init__`: raises `PluginError` when no dump directory is
configured, and errors when the configured value is not a directory
(the source calls `debug.error` there; `debug` is not imported, so the
line raises `NameError` — either way construction fails). -/
def vaddumpInit (isDir : String → Bool) (session : Option Session)
    (dump_dir : Option String) : Except String String :=
  match effectiveDumpDir session dump_dir with
  | none => Except.error "Dump directory not specified."
  | some d =>
    if isDir d then Except.ok d else Except.error (d ++ " is not a directory")

/-- A whole `vaddump` run: construction, then rendering.  A construction
error means no traversal is ever started. -/
def vaddumpRun (isDir : String → Bool) (w : String → Bool)
    (session : Option Session) (dump_dir : Option String) (cap : Nat)
    (tasks : List PTask) : List (String × List Nat) × Option String :=
  match vaddumpInit isDir session dump_dir with
  | Except.error e => ([], some e)
  | Except.ok dir => renderTasks dir w cap tasks

/-- When every destination opens successfully, the dump loop emits exactly
one `(path, bytes)` pair per materialized node that passes the record-type
check, in traversal order, and reports no error. -/
lemma dumpVads_all_writable (dir name : String) (offset : Nat)
    (sp : AddrSpace) :
    ∀ ovs, dumpVads dir (fun _ => true) name offset sp ovs =
      (((ovs.filterMap id).filter (fun v => v.obj_type ≠ "_MMVAD")).map
        (fun v => (dump_path dir name offset v.get_start v.get_end,
          extractVad sp v)), none) := by
  intro ovs
  induction ovs with
  | nil => simp [dumpVads]
  | cons ov rest ih =>
    cases ov with
    | none => simp [dumpVads, ih]
    | some v =>
      by_cases h : v.obj_type = "_MMVAD"
      · simp [dumpVads, h, ih]
      · simp [dumpVads, h, ih]

/-! ## Claim theorems: extraction -/

/-- Claim C1: for every address space and every VAD node accepted for
extraction with bounds `start ≤ end`, the extracted byte stream has length
exactly `end - start + 1`, and every address of `[start, end]` lying on a
page that is not resident reads as a zero byte — never a short read or a
failure. -/
theorem vaddump_extract_zero_padded :
    ∀ (sp : AddrSpace) (v : Vad),
      v.get_start ≤ v.get_end →
      (extractVad sp v).length = v.get_end - v.get_start + 1 ∧
      (∀ a, v.get_start ≤ a → a ≤ v.get_end →
        sp.resident (a / 4096) = false →
        (extractVad sp v).get? (a - v.get_start) = some 0) := by
  intro sp v hse
  constructor
  · simp [extractVad, AddrSpace.zread]
  · intro a ha1 ha2 hres
    have hlt : a - v.get_start < v.get_end - v.get_start + 1 := by omega
    have hadd : v.get_start + (a - v.get_start) = a := by omega
    rw [extractVad, AddrSpace.zread, List.get?_eq_getElem?,
      List.getElem?_map, List.getElem?_range hlt]
    simp only [Option.map_some']
    rw [hadd, hres]
    simp

/-- An address space whose page 0 is resident (filled with byte 7) and all
other pages are not resident. -/
def spaceHalf : AddrSpace :=
  { resident := fun p => p == 0, memByte := fun _ => 7, vtop := fun _ => some 0 }

/-- A four-byte region spanning the page-0/page-1 boundary. -/
def vadSpan : Vad :=
  { obj_offset := 64, Parent := 0, LeftChild := none, RightChild := none,
    get_start := 4094, get_end := 4097, Tag := "VadS", Protection := 4,
    VadType := some 0, PrivateMemory := 1, ControlArea := 0,
    obj_type := "_MMVAD_SHORT" }

theorem vaddump_extract_zero_padded_witness :
    (extractVad spaceHalf vadSpan).length = 4 ∧
    (extractVad spaceHalf vadSpan).get? 2 = some 0 := by
  have h := vaddump_extract_zero_padded spaceHalf vadSpan (by decide)
  exact ⟨h.1.trans (by decide), h.2 4096 (by decide) (by decide) (by decide)⟩

/-- Claim C4: the extractor rejects (skips without extracting) exactly the
materialized nodes whose record type is the generic bad-tag type
`"_MMVAD"`, and extracts every other materialized node offered by the
traversal — the same tag-based validity discipline the walkers apply. -/
theorem vaddump_rejects_bad_records :
    ∀ dir name offset sp ovs,
      (dumpVads dir (fun _ => true) name offset sp ovs).1 =
        ((ovs.filterMap id).filter (fun v => v.obj_type ≠ "_MMVAD")).map
          (fun v => (dump_path dir name offset v.get_start v.get_end,
            extractVad sp v)) := by
  intro dir name offset sp ovs
  rw [dumpVads_all_writable]

/-- First region of the failure scenario; its destination is unwritable. -/
def v1cex : Vad :=
  { obj_offset := 16, Parent := 0, LeftChild := none, RightChild := none,
    get_start := 4096, get_end := 8191, Tag := "VadS", Protection := 4,
    VadType := some 0, PrivateMemory := 1, ControlArea := 0,
    obj_type := "_MMVAD_SHORT" }

/-- Second (sibling) region of the failure scenario; writable. -/
def v2cex : Vad :=
  { obj_offset := 32, Parent := 16, LeftChild := none, RightChild := none,
    get_start := 8192, get_end := 12287, Tag := "VadS", Protection := 4,
    VadType := some 0, PrivateMemory := 1, ControlArea := 0,
    obj_type := "_MMVAD_SHORT" }

/-- The destination path of the first region. -/
def path1cex : String := dump_path "/dumps" "proc.exe" 119 4096 8191

/-- A file system on which exactly `path1cex` cannot be opened. -/
def wCex : String → Bool := fun p => !(p == path1cex)

/-- Counterexample to claim C5: with two sibling regions whose first
destination is unwritable, the dump loop stops at the first failure — no
output is produced, the error carries the first path, and the second
region's destination is never produced, i.e. the sibling is not
attempted. -/
theorem vaddump_sibling_not_attempted_cex :
    (dumpVads "/dumps" wCex "proc.exe" 119 spaceTriv
        [some v1cex, some v2cex]).1 = [] ∧
    (dumpVads "/dumps" wCex "proc.exe" 119 spaceTriv
        [some v1cex, some v2cex]).2 = some path1cex ∧
    dump_path "/dumps" "proc.exe" 119 8192 12287 ∉
      ((dumpVads "/dumps" wCex "proc.exe" 119 spaceTriv
        [some v1cex, some v2cex]).1.map Prod.fst) := by
  decide

/-- Claim C5 (amended): a failure while dumping one region (destination
unwritable) aborts extraction of the remaining sibling regions of that
process: the error propagates, and whatever follows in the traversal is
not attempted — the result does not depend on the remaining regions. -/
theorem vaddump_failure_aborts_siblings :
    ∀ dir w name offset sp v rest,
      v.obj_type ≠ "_MMVAD" →
      w (dump_path dir name offset v.get_start v.get_end) = false →
      dumpVads dir w name offset sp (some v :: rest) =
        ([], some (dump_path dir name offset v.get_start v.get_end)) := by
  intro dir w name offset sp v rest h hw
  simp [dumpVads, h, hw]

theorem vaddump_failure_aborts_siblings_witness :
    dumpVads "/dumps" wCex "proc.exe" 119 spaceTriv [some v1cex, some v2cex] =
      ([], some (dump_path "/dumps" "proc.exe" 119 v1cex.get_start
        v1cex.get_end)) :=
  vaddump_failure_aborts_siblings "/dumps" wCex "proc.exe" 119 spaceTriv
    v1cex [some v2cex] (by decide) (by decide)

/-- Claim C8: extraction is deterministic — two runs over the same
snapshot are identical; with all destinations writable, the emitted
outputs are exactly the per-node images of a fixed function of the
snapshot; and each destination name and byte stream is a function of the
process image name, the control-block offset, the `[start, end]` range and
the address space alone (two nodes agreeing on the range yield identical
name and bytes). -/
theorem vaddump_deterministic_output :
    (∀ isDir w session dd cap tasks,
        vaddumpRun isDir w session dd cap tasks =
          vaddumpRun isDir w session dd cap tasks) ∧
    (∀ dir name offset sp ovs,
        (dumpVads dir (fun _ => true) name offset sp ovs).1 =
          ((ovs.filterMap id).filter (fun v => v.obj_type ≠ "_MMVAD")).map
            (fun v => (dump_path dir name offset v.get_start v.get_end,
              extractVad sp v))) ∧
    (∀ (dir name : String) (offset : Nat) (sp : AddrSpace) (v v2 : Vad),
        v.get_start = v2.get_start → v.get_end = v2.get_end →
        (dump_path dir name offset v.get_start v.get_end, extractVad sp v) =
          (dump_path dir name offset v2.get_start v2.get_end,
            extractVad sp v2)) := by
  refine ⟨fun _ _ _ _ _ _ => rfl, ?_, ?_⟩
  · intro dir name offset sp ovs
    rw [dumpVads_all_writable]
  · intro dir name offset sp v v2 h1 h2
    rw [extractVad, extractVad, h1, h2]

theorem vaddump_deterministic_output_witness :
    (dump_path "/d" "p.exe" 119 v1cex.get_start v1cex.get_end,
      extractVad spaceTriv v1cex) =
    (dump_path "/d" "p.exe" 119 vadCyc.get_start vadCyc.get_end,
      extractVad spaceTriv vadCyc) :=
  vaddump_deterministic_output.2.2 "/d" "p.exe" 119 spaceTriv v1cex vadCyc
    (by decide) (by decide)

/-- A file-system check accepting exactly the directory `/dumps`. -/
def isDirCex : String → Bool := fun d => d == "/dumps"

/-- First process of the run-halt scenario: one region whose destination
is unwritable. -/
def taskCex1 : PTask :=
  { UniqueProcessId := 1, ImageFileName := "proc.exe", obj_offset := 1024,
    space := { resident := fun _ => true, memByte := fun _ => 0,
               vtop := fun _ => some 119 },
    VadRoot := 16, mem := fun r => if r = 16 then some v1cex else none }

/-- Second process of the run-halt scenario: one writable region. -/
def taskCex2 : PTask :=
  { UniqueProcessId := 2, ImageFileName := "proc2.exe", obj_offset := 1024,
    space := { resident := fun _ => true, memByte := fun _ => 0,
               vtop := fun _ => some 119 },
    VadRoot := 32, mem := fun r => if r = 32 then some v2cex else none }

/-- Claim C9 (amended): a configuration error (dump directory
unspecified, missing, or not a directory) makes the run fail before any
traversal — for every process list the result is the bare error with no
output — and every valid configuration constructs successfully. -/
theorem vaddump_config_fail_fast :
    (∀ isDir w session dd cap tasks e,
        vaddumpInit isDir session dd = Except.error e →
        vaddumpRun isDir w session dd cap tasks = ([], some e)) ∧
    (∀ isDir session dd d,
        effectiveDumpDir session dd = some d → isDir d = true →
        vaddumpInit isDir session dd = Except.ok d) := by
  constructor
  · intro isDir w session dd cap tasks e h
    simp [vaddumpRun, h]
  · intro isDir session dd d h hd
    simp [vaddumpInit, h, hd]

theorem vaddump_config_fail_fast_witness :
    vaddumpRun isDirCex wCex none none 10 [taskCex1, taskCex2] =
      ([], some "Dump directory not specified.") ∧
    vaddumpInit isDirCex none (some "/dumps") = Except.ok "/dumps" :=
  ⟨vaddump_config_fail_fast.1 isDirCex wCex none none 10 [taskCex1, taskCex2]
      "Dump directory not specified." (by rfl),
   vaddump_config_fail_fast.2 isDirCex none (some "/dumps") "/dumps"
      (by decide) (by decide)⟩

/-- Counterexample to claim C9's "only condition that halts a whole run":
with a fully valid configuration (the dump directory exists), a
destination write failure in the first process halts the entire run — the
run ends with that error and the second process's region is never
dumped. -/
theorem vaddump_nonconfig_halt_cex :
    vaddumpInit isDirCex none (some "/dumps") = Except.ok "/dumps" ∧
    (vaddumpRun isDirCex wCex none (some "/dumps") 10
        [taskCex1, taskCex2]).2 = some path1cex ∧
    (vaddumpRun isDirCex wCex none (some "/dumps") 10
        [taskCex1, taskCex2]).1 = [] := by
  refine ⟨by rfl, by decide, by decide⟩

end Vadinfo
